import Mathlib

/-!
Verification development for the path-warping geometry core of the
fiddlesticks vector-graphics editor.  The TypeScript sources embedded here:

* `PaperHelpers.tracePathAsPoints`, `tracePath`, `traceCompoundPath`,
  `dualBoundsPathProjection` (packages/type-sketcher/src/SketchStore.ts)
* `DualBoundsPathWarp.updateWarped`, `updateOutlineShape`, `boundsWatch`,
  the `source` getter/setter (src/workspace/DualBoundsPathWarp.ts)

Coordinates are rationals; curves from the rendering library are modelled
by their arc-length contract: a total length and a fallible point query
`getPointAt : ℚ → Option Point` (paper.js returns `null` for a failed
query, embedded as `none`).
-/

namespace Fiddlesticks

/-- 2D coordinate value type with the vector arithmetic paper.js points
provide (component-wise add/subtract, scalar multiply). -/
structure Point where
  x : ℚ
  y : ℚ
deriving DecidableEq, Repr

/-- Component-wise addition, as `paper.Point.add`. -/
def Point.add (p q : Point) : Point := ⟨p.x + q.x, p.y + q.y⟩

/-- Component-wise subtraction, as `paper.Point.subtract`. -/
def Point.subtract (p q : Point) : Point := ⟨p.x - q.x, p.y - q.y⟩

/-- Scalar multiplication, as `paper.Point.multiply` with a number. -/
def Point.multiply (p : Point) (s : ℚ) : Point := ⟨p.x * s, p.y * s⟩

/-- The `Curvelike` contract consumed by the sampler and the projector:
a total arc length and the arc-length query `getPointAt`, which may fail
(paper.js returns `null`), embedded as an `Option`. -/
structure Curvelike where
  length : ℚ
  getPointAt : ℚ → Option Point

/-- Loop body of `tracePathAsPoints`: the TypeScript `while (i++ < numPoints)`
loop, counting down the remaining iterations and threading the running
`offset`.  Each iteration queries `path.getPointAt(Math.min(offset, pathLength))`
and then advances `offset` by `offsetIncr`. -/
def tracePathAsPointsLoop (path : Curvelike) (offsetIncr : ℚ) :
    ℕ → ℚ → List (Option Point)
  | 0, _ => []
  | n + 1, offset =>
      path.getPointAt (min offset path.length) ::
        tracePathAsPointsLoop path offsetIncr n (offset + offsetIncr)

/-- Embedding of `PaperHelpers.tracePathAsPoints`: samples `numPoints`
points along `path`, stepping the offset by `path.length / numPoints`
starting from 0, each query clamped above by `path.length`. -/
def tracePathAsPoints (path : Curvelike) (numPoints : ℕ) : List (Option Point) :=
  let pathLength := path.length
  let offsetIncr := pathLength / (numPoints : ℚ)
  tracePathAsPointsLoop path offsetIncr numPoints 0

/-- Embedding of `PaperHelpers.dualBoundsPathProjection`: captures both
path lengths once, then maps a unit point to the linear interpolation
between the two boundary queries.  Both queries use `unitPoint.x` against
the respective boundary's own length.  If either query fails the closure
returns `topPoint` unchanged (the TypeScript
`if (topPoint == null || bottomPoint == null) return topPoint`). -/
def dualBoundsPathProjection (topPath bottomPath : Curvelike) :
    Point → Option Point :=
  let topPathLength := topPath.length
  let bottomPathLength := bottomPath.length
  fun unitPoint =>
    let topPoint := topPath.getPointAt (unitPoint.x * topPathLength)
    let bottomPoint := bottomPath.getPointAt (unitPoint.x * bottomPathLength)
    match topPoint, bottomPoint with
    | some tp, some bp => some (tp.add ((bp.subtract tp).multiply unitPoint.y))
    | tp, _ => tp

/-- A simple path as the tracing and warping code sees it: its arc-length
contract plus the `clockwise` winding flag paper.js exposes. -/
structure PaperPath where
  curve : Curvelike
  clockwise : Bool

/-- A path rebuilt from sampled points by `tracePath` or `updateWarped`:
the segment list (each entry the possibly-failed query result), the
`closed` flag, and the `clockwise` flag passed to the constructor. -/
structure TracedPath where
  segments : List (Option Point)
  closed : Bool
  clockwise : Bool
deriving DecidableEq, Repr

/-- Embedding of `PaperHelpers.tracePath`: samples the path and rebuilds
it as a closed path with the source's clockwise flag. -/
def tracePath (path : PaperPath) (numPoints : ℕ) : TracedPath :=
  { segments := tracePathAsPoints path.curve numPoints
    closed := true
    clockwise := path.clockwise }

/-- A compound path: ordered children (simple paths) plus the compound's
own winding flag. -/
structure CompoundPath where
  children : List PaperPath
  clockwise : Bool

/-- The compound path `traceCompoundPath` builds from per-child traces. -/
structure TracedCompound where
  children : List TracedPath
  clockwise : Bool

/-- Embedding of `PaperHelpers.traceCompoundPath`: with no children the
TypeScript returns `null` (embedded as `none`); otherwise each child is
traced at the same `pointsPerPath` and the children are reassembled in
order under the compound's clockwise flag. -/
def traceCompoundPath (path : CompoundPath) (pointsPerPath : ℕ) :
    Option TracedCompound :=
  if path.children.length = 0 then none
  else some
    { children := path.children.map (fun p => tracePath p pointsPerPath)
      clockwise := path.clockwise }

/-- Bounding box of a source outline: `topLeft` origin plus width and
height, the three values `updateWarped` reads from `source.bounds`. -/
structure Rect where
  origin : Point
  width : ℚ
  height : ℚ

/-- The warp source as `updateWarped` consumes it: its bounding box and
its child contours. -/
structure WarpSource where
  bounds : Rect
  children : List PaperPath

/-- The point transform `updateWarped` builds: `null` points pass through,
otherwise the point is normalized against the source bounding box into the
unit square and fed to the projection. -/
def warpPointTransform (projection : Point → Option Point)
    (orthOrigin : Point) (orthWidth orthHeight : ℚ) :
    Option Point → Option Point
  | none => none
  | some p =>
      let relative := p.subtract orthOrigin
      let unit : Point := ⟨relative.x / orthWidth, relative.y / orthHeight⟩
      projection unit

/-- Embedding of `DualBoundsPathWarp.updateWarped`'s per-contour pipeline:
build the projection from the two boundaries, sample each source child at
`pointsPerPath` points, push every sample through the transform, and
rebuild each contour as a closed path keeping its clockwise flag.  The
result is the list of new children installed into `_warped`. -/
def updateWarped (source : WarpSource) (upper lower : Curvelike)
    (pointsPerPath : ℕ) : List TracedPath :=
  let orthOrigin := source.bounds.origin
  let orthWidth := source.bounds.width
  let orthHeight := source.bounds.height
  let projection := dualBoundsPathProjection upper lower
  let transform := warpPointTransform projection orthOrigin orthWidth orthHeight
  source.children.map fun path =>
    let xPoints := (tracePathAsPoints path.curve pointsPerPath).map transform
    { segments := xPoints
      closed := true
      clockwise := path.clockwise }

/-- The constant `DualBoundsPathWarp.POINTS_PER_PATH`. -/
def POINTS_PER_PATH : ℕ := 200

/-- A path segment from the rendering library: anchor point plus incoming
and outgoing tangent handles. -/
structure Segment where
  point : Point
  handleIn : Point
  handleOut : Point
deriving DecidableEq, Repr

/-- Segment-list reversal as `paper.Path.reverse` performs it: the
segment order is reversed and each segment's handles are swapped. -/
def reverseSegments (segs : List Segment) : List Segment :=
  (segs.map fun s => ⟨s.point, s.handleOut, s.handleIn⟩).reverse

/-- A boundary editing surface (`StretchPath`) as the composite reads it:
its segment list plus its arc-length contract used by the projector. -/
structure StretchPath where
  segments : List Segment
  curve : Curvelike

/-- Change-kind flags of the rendering library's notification mechanism
(`PaperNotify.ChangeFlag`), a bitmask; the composite tests `SEGMENTS`
and emits `GEOMETRY`. -/
def ChangeFlag.GEOMETRY : ℕ := 8

/-- The `SEGMENTS` bit of the change-flag bitmask. -/
def ChangeFlag.SEGMENTS : ℕ := 16

/-- The `ATTRIBUTE` bit of the change-flag bitmask. -/
def ChangeFlag.ATTRIBUTE : ℕ := 128

/-- State of a `DualBoundsPathWarp` composite: the authoritative source,
the two boundary surfaces, the derived warped children, the derived
outline path (created `closed: true` at construction, segments rewritten
by `updateOutlineShape`), and the sampling density. -/
structure WarpCompositeState where
  source : WarpSource
  upper : StretchPath
  lower : StretchPath
  warped : List TracedPath
  outlineSegments : List Segment
  outlineClosed : Bool
  pointsPerPath : ℕ

/-- Embedding of `DualBoundsPathWarp.updateOutlineShape`: the outline's
segments become the upper boundary's segments concatenated with the
reversed lower boundary's segments (a fresh path over `_lower.segments`
is reversed, then concatenated). -/
def updateOutlineShape (s : WarpCompositeState) : WarpCompositeState :=
  { s with outlineSegments :=
      s.upper.segments ++ reverseSegments s.lower.segments }

/-- Recompute of the warped children as `updateWarped` installs them. -/
def updateWarpedState (s : WarpCompositeState) : WarpCompositeState :=
  { s with warped :=
      updateWarped s.source s.upper.curve s.lower.curve s.pointsPerPath }

/-- Embedding of the `boundsWatch` observer registered on both boundary
surfaces: when the notification's `SEGMENTS` bit is set it reruns
`updateOutlineShape` then `updateWarped` and fires `_changed(GEOMETRY)`
once; otherwise it does nothing.  The second component lists the change
notifications emitted upward. -/
def boundsWatch (flags : ℕ) (s : WarpCompositeState) :
    WarpCompositeState × List ℕ :=
  if flags &&& ChangeFlag.SEGMENTS ≠ 0 then
    (updateWarpedState (updateOutlineShape s), [ChangeFlag.GEOMETRY])
  else
    (s, [])

/-- Embedding of the `source` setter: store the new compound outline and
rerun `updateWarped`; nothing else is touched. -/
def setSource (s : WarpCompositeState) (value : WarpSource) :
    WarpCompositeState :=
  updateWarpedState { s with source := value }

/-- Reference-level view of the composite's authoritative source for the
clone claim: a heap of compound-outline values addressed by ids, the next
fresh id, and the id the composite holds.  Mutation through a reference
and the cloning getter are modelled explicitly. -/
structure SourceRefState where
  heap : ℕ → WarpSource
  next : ℕ
  sourceRef : ℕ

/-- Write the compound-outline value stored at reference `r`. -/
def writeRef (c : SourceRefState) (r : ℕ) (v : WarpSource) : SourceRefState :=
  { c with heap := fun i => if i = r then v else c.heap i }

/-- Embedding of the `source` getter: `this._source.clone()` allocates a
fresh object carrying a copy of the authoritative source's value and
returns it; the composite keeps holding its own reference. -/
def getSourceClone (c : SourceRefState) : SourceRefState × ℕ :=
  ({ heap := fun i => if i = c.next then c.heap c.sourceRef else c.heap i
     next := c.next + 1
     sourceRef := c.sourceRef }, c.next)

/-- Projection formula exactly as claim C1 words it, for comparison with
the code's `dualBoundsPathProjection`: here the bottom query is made at
`v * lowerLength` (the unit point's y component) where the code queries at
`u * lowerLength` (its x component). -/
def claimedC1Projection (topPath bottomPath : Curvelike) :
    Point → Option Point :=
  let topPathLength := topPath.length
  let bottomPathLength := bottomPath.length
  fun unitPoint =>
    let topPoint := topPath.getPointAt (unitPoint.x * topPathLength)
    let bottomPoint := bottomPath.getPointAt (unitPoint.y * bottomPathLength)
    match topPoint, bottomPoint with
    | some tp, some bp => some (tp.add ((bp.subtract tp).multiply unitPoint.y))
    | tp, _ => tp

/-- Offsets at which the sampling loop of `tracePathAsPoints` queries
`getPointAt`, mirroring `tracePathAsPointsLoop` step for step: each
iteration records `min offset pathLength` and advances by `offsetIncr`. -/
def traceOffsetsLoop (pathLength offsetIncr : ℚ) : ℕ → ℚ → List ℚ
  | 0, _ => []
  | n + 1, offset =>
      min offset pathLength ::
        traceOffsetsLoop pathLength offsetIncr n (offset + offsetIncr)

/-- Distance arguments `tracePathAsPoints path numPoints` passes to
`path.getPointAt`, in query order. -/
def traceQueriedOffsets (path : Curvelike) (numPoints : ℕ) : List ℚ :=
  traceOffsetsLoop path.length (path.length / (numPoints : ℚ)) numPoints 0

/-! ### Helper lemmas about the sampling loop -/

/-- The sampling loop always emits exactly as many points as iterations. -/
theorem tracePathAsPointsLoop_length (path : Curvelike) (incr : ℚ) :
    ∀ (n : ℕ) (off : ℚ), (tracePathAsPointsLoop path incr n off).length = n := by
  intro n
  induction n with
  | zero => intro off; rfl
  | succ k ih => intro off; simp [tracePathAsPointsLoop, ih]

/-- The i-th point the loop emits is the query at `min (off + i·incr) length`. -/
theorem tracePathAsPointsLoop_getElem (path : Curvelike) (incr : ℚ) :
    ∀ (n i : ℕ) (off : ℚ), i < n →
      (tracePathAsPointsLoop path incr n off)[i]? =
        some (path.getPointAt (min (off + (i : ℚ) * incr) path.length)) := by
  intro n
  induction n with
  | zero => intro i off h; exact absurd h (Nat.not_lt_zero i)
  | succ k ih =>
    intro i off h
    cases i with
    | zero =>
        simp [tracePathAsPointsLoop]
    | succ j =>
        rw [tracePathAsPointsLoop, List.getElem?_cons_succ,
          ih j (off + incr) (Nat.lt_of_succ_lt_succ h)]
        have harg : off + incr + (j : ℚ) * incr = off + ((j + 1 : ℕ) : ℚ) * incr := by
          push_cast
          ring
        rw [harg]

/-- The sampling loop is the pointwise query of the recorded offsets. -/
theorem tracePathAsPointsLoop_eq_map (path : Curvelike) (incr : ℚ) :
    ∀ (n : ℕ) (off : ℚ),
      tracePathAsPointsLoop path incr n off =
        (traceOffsetsLoop path.length incr n off).map path.getPointAt := by
  intro n
  induction n with
  | zero => intro off; rfl
  | succ k ih =>
      intro off
      simp [tracePathAsPointsLoop, traceOffsetsLoop, ih]

/-- Every offset the loop records stays inside `[0, pathLength]` when the
starting offset, the increment and the path length are non-negative. -/
theorem traceOffsetsLoop_mem_bounds (L incr : ℚ) (hL : 0 ≤ L) (hincr : 0 ≤ incr) :
    ∀ (n : ℕ) (off : ℚ), 0 ≤ off →
      ∀ d ∈ traceOffsetsLoop L incr n off, 0 ≤ d ∧ d ≤ L := by
  intro n
  induction n with
  | zero =>
      intro off _ d hd
      simp [traceOffsetsLoop] at hd
  | succ k ih =>
      intro off hoff d hd
      rw [traceOffsetsLoop, List.mem_cons] at hd
      rcases hd with hd | hd
      · subst hd
        exact ⟨le_min hoff hL, min_le_right _ _⟩
      · exact ih (off + incr) (add_nonneg hoff hincr) d hd

/-! ### Helper lemmas about point arithmetic and the projection -/

/-- Interpolating with fraction 0 returns the first point. -/
theorem Point.affine_zero (p q : Point) : p.add ((q.subtract p).multiply 0) = p := by
  cases p
  cases q
  simp [Point.add, Point.subtract, Point.multiply]

/-- Interpolating with fraction 1 returns the second point. -/
theorem Point.affine_one (p q : Point) : p.add ((q.subtract p).multiply 1) = q := by
  cases p
  cases q
  simp only [Point.add, Point.subtract, Point.multiply, Point.mk.injEq]
  exact ⟨by ring, by ring⟩

/-- Interpolating with fraction 1/2 returns the midpoint. -/
theorem Point.affine_half (p q : Point) :
    p.add ((q.subtract p).multiply ((1 : ℚ) / 2)) = (p.add q).multiply ((1 : ℚ) / 2) := by
  cases p
  cases q
  simp only [Point.add, Point.subtract, Point.multiply, Point.mk.injEq]
  exact ⟨by ring, by ring⟩

/-- When both boundary queries succeed the projection returns the linear
interpolation; both queries are made at `u` times the respective length. -/
theorem dualBoundsPathProjection_eq_some (top bottom : Curvelike) (u v : ℚ)
    (tp bp : Point)
    (htp : top.getPointAt (u * top.length) = some tp)
    (hbp : bottom.getPointAt (u * bottom.length) = some bp) :
    dualBoundsPathProjection top bottom ⟨u, v⟩ =
      some (tp.add ((bp.subtract tp).multiply v)) := by
  simp only [dualBoundsPathProjection]
  rw [htp, hbp]

/-! ### Claim theorems -/

/-- Claim C1, counterexample: the claim's formula queries the lower
boundary at `v * lowerLength`, but the code queries it at
`u * lowerLength`; at boundaries of length 1 with point queries
`d ↦ (d, 0)` (upper) and `d ↦ (d, 1)` (lower) and unit point
`(u, v) = (1, 1/2)`, the code yields `(1, 1/2)` while the claimed
formula yields `(3/4, 1/2)`. -/
theorem claim1_counterexample :
    dualBoundsPathProjection
        ⟨1, fun d => some ⟨d, 0⟩⟩ ⟨1, fun d => some ⟨d, 1⟩⟩ ⟨1, 1 / 2⟩ ≠
      claimedC1Projection
        ⟨1, fun d => some ⟨d, 0⟩⟩ ⟨1, fun d => some ⟨d, 1⟩⟩ ⟨1, 1 / 2⟩ := by
  have h1 : dualBoundsPathProjection
      ⟨1, fun d => some ⟨d, 0⟩⟩ ⟨1, fun d => some ⟨d, 1⟩⟩ ⟨1, 1 / 2⟩ =
      some ⟨1, 1 / 2⟩ := by
    simp only [dualBoundsPathProjection]
    norm_num [Point.add, Point.subtract, Point.multiply]
  have h2 : claimedC1Projection
      ⟨1, fun d => some ⟨d, 0⟩⟩ ⟨1, fun d => some ⟨d, 1⟩⟩ ⟨1, 1 / 2⟩ =
      some ⟨3 / 4, 1 / 2⟩ := by
    simp only [claimedC1Projection]
    norm_num [Point.add, Point.subtract, Point.multiply]
  rw [h1, h2]
  intro hcontra
  rw [Option.some.injEq, Point.mk.injEq] at hcontra
  exact absurd hcontra.1 (by norm_num)

/-- Claim C1, amended: the projection built by `dualBoundsPathProjection`
computes `topPoint = upper.pointAt(u * upperLength)` and
`bottomPoint = lower.pointAt(u * lowerLength)` (both queries use `u`, each
against its own boundary's length), and when both points exist returns
`topPoint + (bottomPoint - topPoint) * v`. -/
theorem claim1_projection_formula (upper lower : Curvelike) (u v : ℚ)
    (tp bp : Point)
    (htp : upper.getPointAt (u * upper.length) = some tp)
    (hbp : lower.getPointAt (u * lower.length) = some bp) :
    dualBoundsPathProjection upper lower ⟨u, v⟩ =
      some (tp.add ((bp.subtract tp).multiply v)) :=
  dualBoundsPathProjection_eq_some upper lower u v tp bp htp hbp

/-- Claim C1, witness for the amended theorem at concrete boundaries. -/
theorem claim1_projection_formula_witness :
    dualBoundsPathProjection
        ⟨1, fun d => some ⟨d, 0⟩⟩ ⟨1, fun d => some ⟨d, 1⟩⟩ ⟨1, 1 / 2⟩ =
      some (Point.add ⟨1, 0⟩ ((Point.subtract ⟨1, 1⟩ ⟨1, 0⟩).multiply (1 / 2))) :=
  claim1_projection_formula ⟨1, fun d => some ⟨d, 0⟩⟩ ⟨1, fun d => some ⟨d, 1⟩⟩
    1 (1 / 2) ⟨1, 0⟩ ⟨1, 1⟩ (by norm_num) (by norm_num)

/-- Claim C2: for every curve with non-negative length and every
pointCount n ≥ 1, the sampler returns exactly n points, the i-th point is
`C.pointAt(min(i * (C.length / n), C.length))`, and pointCount 1 yields
the single point `C.pointAt(0)`. -/
theorem claim2_sampler_count_and_points (C : Curvelike) (n : ℕ)
    (hlen : 0 ≤ C.length) (hn : 1 ≤ n) :
    (tracePathAsPoints C n).length = n ∧
    (∀ i : ℕ, i < n →
      (tracePathAsPoints C n)[i]? =
        some (C.getPointAt (min ((i : ℚ) * (C.length / (n : ℚ))) C.length))) ∧
    (n = 1 → tracePathAsPoints C n = [C.getPointAt 0]) := by
  refine ⟨?_, ?_, ?_⟩
  · exact tracePathAsPointsLoop_length C _ n 0
  · intro i hi
    have h := tracePathAsPointsLoop_getElem C (C.length / (n : ℚ)) n i 0 hi
    simpa [tracePathAsPoints] using h
  · intro h1
    subst h1
    simp [tracePathAsPoints, tracePathAsPointsLoop, min_eq_left hlen]

/-- Claim C2, witness: sampling a concrete curve of length 2 with
pointCount 4 yields exactly 4 points. -/
theorem claim2_sampler_count_and_points_witness :
    (tracePathAsPoints ⟨2, fun d => some ⟨d, 0⟩⟩ 4).length = 4 :=
  (claim2_sampler_count_and_points ⟨2, fun d => some ⟨d, 0⟩⟩ 4
    (by norm_num) (by norm_num)).1

/-- Claim C3: when the boundary queries succeed, the projection satisfies
the corner identities `project(0,0) = upper.pointAt(0)` and
`project(0,1) = lower.pointAt(0)`, and for fixed `u` the map
`v ↦ project(u, v)` is the affine map `tp + (bp - tp)·v`, giving the upper
point at `v = 0`, the lower point at `v = 1`, and their midpoint at
`v = 1/2`. -/
theorem claim3_projection_corners_and_affine (upper lower : Curvelike) (u : ℚ)
    (tp0 bp0 tp bp : Point)
    (h0t : upper.getPointAt 0 = some tp0)
    (h0b : lower.getPointAt 0 = some bp0)
    (hut : upper.getPointAt (u * upper.length) = some tp)
    (hub : lower.getPointAt (u * lower.length) = some bp) :
    dualBoundsPathProjection upper lower ⟨0, 0⟩ = some tp0 ∧
    dualBoundsPathProjection upper lower ⟨0, 1⟩ = some bp0 ∧
    (∀ v : ℚ, dualBoundsPathProjection upper lower ⟨u, v⟩ =
      some (tp.add ((bp.subtract tp).multiply v))) ∧
    dualBoundsPathProjection upper lower ⟨u, 0⟩ = some tp ∧
    dualBoundsPathProjection upper lower ⟨u, 1⟩ = some bp ∧
    dualBoundsPathProjection upper lower ⟨u, (1 : ℚ) / 2⟩ =
      some ((tp.add bp).multiply ((1 : ℚ) / 2)) := by
  have h0t' : upper.getPointAt ((0 : ℚ) * upper.length) = some tp0 := by
    rwa [zero_mul]
  have h0b' : lower.getPointAt ((0 : ℚ) * lower.length) = some bp0 := by
    rwa [zero_mul]
  refine ⟨?_, ?_, ?_, ?_, ?_, ?_⟩
  · rw [dualBoundsPathProjection_eq_some upper lower 0 0 tp0 bp0 h0t' h0b',
      Point.affine_zero]
  · rw [dualBoundsPathProjection_eq_some upper lower 0 1 tp0 bp0 h0t' h0b',
      Point.affine_one]
  · intro v
    exact dualBoundsPathProjection_eq_some upper lower u v tp bp hut hub
  · rw [dualBoundsPathProjection_eq_some upper lower u 0 tp bp hut hub,
      Point.affine_zero]
  · rw [dualBoundsPathProjection_eq_some upper lower u 1 tp bp hut hub,
      Point.affine_one]
  · rw [dualBoundsPathProjection_eq_some upper lower u ((1 : ℚ) / 2) tp bp hut hub,
      Point.affine_half]

/-- Claim C3, witness at concrete straight boundaries and `u = 1/2`. -/
theorem claim3_projection_corners_and_affine_witness :
    dualBoundsPathProjection
      ⟨1, fun d => some ⟨d, 0⟩⟩ ⟨1, fun d => some ⟨d, 1⟩⟩ ⟨0, 0⟩ =
      some ⟨0, 0⟩ :=
  (claim3_projection_corners_and_affine
    ⟨1, fun d => some ⟨d, 0⟩⟩ ⟨1, fun d => some ⟨d, 1⟩⟩ (1 / 2)
    ⟨0, 0⟩ ⟨0, 1⟩ ⟨1 / 2, 0⟩ ⟨1 / 2, 1⟩
    (by norm_num) (by norm_num) (by norm_num) (by norm_num)).1

/-- Claim C4: each output contour of `updateWarped` is built closed and
carries exactly the source contour's clockwise flag, for any boundaries;
the output has one contour per source contour. -/
theorem claim4_warp_preserves_winding (source : WarpSource)
    (upper lower : Curvelike) (n i : ℕ) (cp : PaperPath)
    (h : source.children[i]? = some cp) :
    (updateWarped source upper lower n).length = source.children.length ∧
    ((updateWarped source upper lower n)[i]?.map TracedPath.closed = some true) ∧
    ((updateWarped source upper lower n)[i]?.map TracedPath.clockwise =
      some cp.clockwise) := by
  refine ⟨?_, ?_, ?_⟩
  · simp [updateWarped]
  · simp [updateWarped, List.getElem?_map, h]
  · simp [updateWarped, List.getElem?_map, h]

/-- Claim C4, witness: warping a one-contour source flagged clockwise
yields a contour flagged clockwise. -/
theorem claim4_warp_preserves_winding_witness :
    (updateWarped ⟨⟨⟨0, 0⟩, 1, 1⟩, [⟨⟨1, fun d => some ⟨d, 0⟩⟩, true⟩]⟩
        ⟨1, fun d => some ⟨d, 0⟩⟩ ⟨1, fun d => some ⟨d, 1⟩⟩ 2)[0]?.map
      TracedPath.clockwise = some true :=
  (claim4_warp_preserves_winding
    ⟨⟨⟨0, 0⟩, 1, 1⟩, [⟨⟨1, fun d => some ⟨d, 0⟩⟩, true⟩]⟩
    ⟨1, fun d => some ⟨d, 0⟩⟩ ⟨1, fun d => some ⟨d, 1⟩⟩ 2 0
    ⟨⟨1, fun d => some ⟨d, 0⟩⟩, true⟩ rfl).2.2

/-- Claim C5: a boundary notification whose `SEGMENTS` bit is set makes
the composite rebuild the outline as the still-closed path whose segments
are the upper boundary's segments followed by the reversed lower
boundary's segments, recompute the full warp of the source, and emit
exactly one `GEOMETRY` notification. -/
theorem claim5_bounds_change_recompute (flags : ℕ) (s : WarpCompositeState)
    (hflag : flags &&& ChangeFlag.SEGMENTS ≠ 0)
    (hclosed : s.outlineClosed = true) :
    (boundsWatch flags s).1.outlineSegments =
      s.upper.segments ++ reverseSegments s.lower.segments ∧
    (boundsWatch flags s).1.outlineClosed = true ∧
    (boundsWatch flags s).1.warped =
      updateWarped s.source s.upper.curve s.lower.curve s.pointsPerPath ∧
    (boundsWatch flags s).2 = [ChangeFlag.GEOMETRY] ∧
    (boundsWatch flags s).2.length = 1 := by
  simp [boundsWatch, hflag, updateWarpedState, updateOutlineShape, hclosed]

/-- Claim C5, witness at a concrete composite state and a notification
carrying exactly the `SEGMENTS` flag. -/
theorem claim5_bounds_change_recompute_witness :
    (boundsWatch 16
      ⟨⟨⟨⟨0, 0⟩, 1, 1⟩, []⟩, ⟨[], ⟨1, fun d => some ⟨d, 0⟩⟩⟩,
        ⟨[], ⟨1, fun d => some ⟨d, 1⟩⟩⟩, [], [], true, 2⟩).2 =
      [ChangeFlag.GEOMETRY] :=
  (claim5_bounds_change_recompute 16
    ⟨⟨⟨⟨0, 0⟩, 1, 1⟩, []⟩, ⟨[], ⟨1, fun d => some ⟨d, 0⟩⟩⟩,
      ⟨[], ⟨1, fun d => some ⟨d, 1⟩⟩⟩, [], [], true, 2⟩
    (by decide) rfl).2.2.2.1

/-- Claim C6: when either boundary query fails, the projection returns
the (possibly absent) top query result directly — a total, recoverable
fallback rather than an exception. -/
theorem claim6_degenerate_returns_top (top bottom : Curvelike) (u v : ℚ)
    (h : top.getPointAt (u * top.length) = none ∨
      bottom.getPointAt (u * bottom.length) = none) :
    dualBoundsPathProjection top bottom ⟨u, v⟩ =
      top.getPointAt (u * top.length) := by
  rcases h with h | h
  · simp [dualBoundsPathProjection, h]
  · cases htop : top.getPointAt (u * top.length) with
    | none => simp [dualBoundsPathProjection, h, htop]
    | some tp => simp [dualBoundsPathProjection, h, htop]

/-- Claim C6, witness with a degenerate (always-failing) lower boundary. -/
theorem claim6_degenerate_returns_top_witness :
    dualBoundsPathProjection ⟨1, fun d => some ⟨d, 0⟩⟩ ⟨0, fun _ => none⟩
      ⟨1 / 2, 1 / 2⟩ =
      (⟨1, fun d => some ⟨d, 0⟩⟩ : Curvelike).getPointAt
        ((1 / 2) * (⟨1, fun d => some ⟨d, 0⟩⟩ : Curvelike).length) :=
  claim6_degenerate_returns_top ⟨1, fun d => some ⟨d, 0⟩⟩ ⟨0, fun _ => none⟩
    (1 / 2) (1 / 2) (Or.inr rfl)

/-- Claim C7: tracing a compound curve with zero children yields `none`
(the TypeScript `null`), never an exception. -/
theorem claim7_empty_compound_yields_none (path : CompoundPath) (n : ℕ)
    (h : path.children = []) :
    traceCompoundPath path n = none := by
  simp [traceCompoundPath, h]

/-- Claim C7, witness at a concrete childless compound curve. -/
theorem claim7_empty_compound_yields_none_witness :
    traceCompoundPath ⟨[], true⟩ 7 = none :=
  claim7_empty_compound_yields_none ⟨[], true⟩ 7 rfl

/-- Claim C8: the `source` setter stores the new compound outline as the
authoritative source and reruns the full warp recompute against it, while
both boundary surfaces — their segments and their curve contracts (hence
lengths) — are left untouched. -/
theorem claim8_set_source_frame (s : WarpCompositeState) (value : WarpSource) :
    (setSource s value).source = value ∧
    (setSource s value).upper = s.upper ∧
    (setSource s value).lower = s.lower ∧
    (setSource s value).upper.segments = s.upper.segments ∧
    (setSource s value).upper.curve.length = s.upper.curve.length ∧
    (setSource s value).lower.segments = s.lower.segments ∧
    (setSource s value).lower.curve.length = s.lower.curve.length ∧
    (setSource s value).warped =
      updateWarped value s.upper.curve s.lower.curve s.pointsPerPath :=
  ⟨rfl, rfl, rfl, rfl, rfl, rfl, rfl, rfl⟩

/-- Claim C9: the `source` getter hands out a clone — a fresh reference
whose value copies the authoritative source — and leaves the composite
unchanged (same held reference, every existing reference's value intact);
writing through the returned reference never changes the value behind the
composite's own reference. -/
theorem claim9_source_clone_isolated (c : SourceRefState)
    (h : c.sourceRef < c.next) :
    (getSourceClone c).1.sourceRef = c.sourceRef ∧
    (∀ r, r < c.next → (getSourceClone c).1.heap r = c.heap r) ∧
    (getSourceClone c).1.heap (getSourceClone c).2 = c.heap c.sourceRef ∧
    (getSourceClone c).2 ≠ c.sourceRef ∧
    ∀ v, (writeRef (getSourceClone c).1 (getSourceClone c).2 v).heap
      c.sourceRef = c.heap c.sourceRef := by
  have hne : c.sourceRef ≠ c.next := Nat.ne_of_lt h
  refine ⟨rfl, ?_, ?_, Nat.ne_of_gt h, ?_⟩
  · intro r hr
    simp [getSourceClone, Nat.ne_of_lt hr]
  · simp [getSourceClone]
  · intro v
    simp [writeRef, getSourceClone, hne]

/-- Claim C9, witness at a one-object heap: writing through the clone
leaves the authoritative source's value unchanged. -/
theorem claim9_source_clone_isolated_witness :
    (writeRef (getSourceClone ⟨fun _ => ⟨⟨⟨0, 0⟩, 1, 1⟩, []⟩, 1, 0⟩).1
        (getSourceClone ⟨fun _ => ⟨⟨⟨0, 0⟩, 1, 1⟩, []⟩, 1, 0⟩).2
        ⟨⟨⟨5, 5⟩, 2, 2⟩, []⟩).heap 0 =
      (⟨fun _ => ⟨⟨⟨0, 0⟩, 1, 1⟩, []⟩, 1, 0⟩ : SourceRefState).heap 0 :=
  (claim9_source_clone_isolated ⟨fun _ => ⟨⟨⟨0, 0⟩, 1, 1⟩, []⟩, 1, 0⟩
    (by decide)).2.2.2.2 ⟨⟨⟨5, 5⟩, 2, 2⟩, []⟩

/-- Claim C10: the sampler queries `getPointAt` exactly at the recorded
offsets, and for a path of non-negative length and `numPoints ≥ 1` every
such distance argument lies in `[0, path.length]`. -/
theorem claim10_query_args_in_domain (path : Curvelike) (n : ℕ)
    (hlen : 0 ≤ path.length) (hn : 1 ≤ n) :
    tracePathAsPoints path n =
      (traceQueriedOffsets path n).map path.getPointAt ∧
    ∀ d ∈ traceQueriedOffsets path n, 0 ≤ d ∧ d ≤ path.length := by
  constructor
  · exact tracePathAsPointsLoop_eq_map path _ n 0
  · have hincr : 0 ≤ path.length / (n : ℚ) :=
      div_nonneg hlen (Nat.cast_nonneg n)
    exact traceOffsetsLoop_mem_bounds path.length _ hlen hincr n 0 le_rfl

/-- Claim C10, witness: the second queried offset on a concrete length-3
path is 1, which the theorem places inside the domain `[0, 3]`. -/
theorem claim10_query_args_in_domain_witness :
    (0 : ℚ) ≤ 1 ∧ (1 : ℚ) ≤ (⟨3, fun d => some ⟨d, 0⟩⟩ : Curvelike).length :=
  (claim10_query_args_in_domain ⟨3, fun d => some ⟨d, 0⟩⟩ 3
    (by norm_num) (by norm_num)).2 1 (by
      norm_num [traceQueriedOffsets, traceOffsetsLoop])

end Fiddlesticks
